import Mathlib

/-!
Verification of the extension error-collection subsystem (ErrorConsole).

The repository ships the browser test
`chrome/browser/extensions/error_console/error_console_browsertest.cc`
for this subsystem; the implementation files (`error_console.cc`,
`error_map.cc`, `extension_error.cc`) are not part of the source set, so
the core is modelled from the specification, faithful to its words, and
the claims are settled against that model.
-/

namespace ErrorConsoleModel

/-- Opaque stable string identifying one installed extension. -/
abbrev ExtensionId := String

/-- Severity of a runtime error (`logging::LogSeverity` restricted to the
levels the spec names: info / warning / error). -/
inductive LogSeverity
  | info
  | warning
  | error
  deriving DecidableEq, Repr

/-- One call-site record in a captured call stack: source text, function
name (or the anonymous-function sentinel), 1-based line and column. -/
structure StackFrame where
  source : String
  function : String
  line_number : Nat
  column_number : Nat
  deriving DecidableEq, Repr

/-- Modelled from the spec: the literal manifest filename that every
ManifestError reports as its `source`. -/
def kManifestFilename : String := "manifest.json"

/-- ErrorRecord: tagged union over the two variants. The ManifestError
variant carries no `source` / `from_incognito` fields of its own: the
spec fixes them (`source` is always the manifest filename,
`from_incognito` is always false), so they are produced by the accessors
below, as the C++ ManifestError constructor hard-codes them. -/
inductive ErrorRecord
  | manifestError (extension_id : ExtensionId) (message : String)
      (manifest_key : String) (manifest_specific : String)
  | runtimeError (extension_id : ExtensionId) (source : String)
      (from_incognito : Bool) (message : String) (level : LogSeverity)
      (context_url : String) (stack_trace : List StackFrame)
  deriving DecidableEq, Repr

/-- Discriminant of the tagged union. -/
inductive ErrorType
  | manifest
  | runtime
  deriving DecidableEq, Repr

namespace ErrorRecord

/-- The variant tag of a record. -/
def etype : ErrorRecord → ErrorType
  | .manifestError .. => .manifest
  | .runtimeError .. => .runtime

/-- The extension the record is attributed to (primary key). -/
def extension_id : ErrorRecord → ExtensionId
  | .manifestError id _ _ _ => id
  | .runtimeError id _ _ _ _ _ _ => id

/-- `source` of a record; for manifest errors it is always the fixed
manifest filename. -/
def source : ErrorRecord → String
  | .manifestError .. => kManifestFilename
  | .runtimeError _ s _ _ _ _ _ => s

/-- `from_incognito` of a record; manifest errors are never attributed
to an incognito context. -/
def from_incognito : ErrorRecord → Bool
  | .manifestError .. => false
  | .runtimeError _ _ b _ _ _ _ => b

/-- Human-readable message of the record. -/
def message : ErrorRecord → String
  | .manifestError _ m _ _ => m
  | .runtimeError _ _ _ m _ _ _ => m

/-- Severity level; only runtime errors carry one. -/
def level : ErrorRecord → Option LogSeverity
  | .manifestError .. => none
  | .runtimeError _ _ _ _ l _ _ => some l

/-- Stored stack trace; manifest errors carry none. -/
def stack_trace : ErrorRecord → List StackFrame
  | .manifestError .. => []
  | .runtimeError _ _ _ _ _ _ st => st

end ErrorRecord

/-- Modelled from the spec: classification of known internal source
patterns. Frames of the internal API-dispatch machinery carry sources of
the form `extensions::<module>` (e.g. the event-bindings and
schema-utils shims named by the test file), while extension-authored
content (background page, content script, extension-hosted page) has a
script URL as its source. -/
def isInternalSource (s : String) : Bool :=
  "extensions::".data.isPrefixOf s.data

/-- A frame source corresponding to extension-authored content, i.e. not
one of the internal shim patterns. -/
def isExtensionAuthoredSource (s : String) : Bool :=
  !(isInternalSource s)

/-- Modelled from the spec: the ingestion-time stack-frame filter — a
pure function of the raw frame sequence keeping exactly the frames whose
source corresponds to extension-authored content. -/
def filterStackFrames (frames : List StackFrame) : List StackFrame :=
  frames.filter (fun f => isExtensionAuthoredSource f.source)

/-- The kind of runtime event an error producer turns into a
RuntimeError: a console log (carrying the log severity) or an uncaught
failure (thrown error, bad API arguments, missing API permission, or an
unchecked `runtime.lastError`). -/
inductive RuntimeEventKind
  | consoleLog (sev : LogSeverity)
  | thrownError
  | badApiArguments
  | missingApiPermission
  | uncheckedLastError
  deriving DecidableEq, Repr

/-- Modelled from the spec: the severity an error producer assigns. JS
errors (every uncaught-failure kind) are always ERROR level; only a
console log carries the severity of the log call. -/
def severityFor : RuntimeEventKind → LogSeverity
  | .consoleLog sev => sev
  | _ => .error

/-- Modelled from the spec: construction of a RuntimeError by an error
producer — the raw call stack is run through the ingestion-time filter
before the record is built. -/
def mkRuntimeError (extension_id : ExtensionId) (source : String)
    (from_incognito : Bool) (message : String) (ev : RuntimeEventKind)
    (context_url : String) (raw_stack : List StackFrame) : ErrorRecord :=
  .runtimeError extension_id source from_incognito message
    (severityFor ev) context_url (filterStackFrames raw_stack)

/-- One observer call fanned out by the console; observers are
identified by a registration handle (a Nat). -/
inductive ObserverCall
  | errorAdded (observer : Nat) (record : ErrorRecord)
  | consoleDestroyed (observer : Nat)
  deriving DecidableEq, Repr

/-- Modelled from the spec: the fixed global cap on the total entry
count across all extensions. The spec calls it a fixed constant without
naming its value; 100 stands for it here. -/
def kMaxTotalErrors : Nat := 100

/-- Modelled from the spec: the console state — the developer-mode gate
it mirrors, the store (all records in global insertion order; the
per-extension ErrorList view is the filter below), and the observer
registry in registration order. -/
structure ErrorConsole where
  devMode : Bool
  store : List ErrorRecord
  observers : List Nat
  deriving DecidableEq, Repr

/-- A freshly activated console: empty store, no observers. -/
def initConsole (devMode : Bool) : ErrorConsole :=
  { devMode := devMode, store := [], observers := [] }

/-- The ErrorList for one extension id: the stored records attributed to
it, in insertion order (empty if none exists). Read-only. -/
def getErrorsForExtension (c : ErrorConsole) (id : ExtensionId) :
    List ErrorRecord :=
  c.store.filter (fun r => r.extension_id == id)

/-- Modelled from the spec: the eviction cap — when an insertion would
exceed the fixed global cap, the single oldest record store-wide (the
head of the global insertion order) is evicted first. -/
def applyCap (store : List ErrorRecord) : List ErrorRecord :=
  if kMaxTotalErrors ≤ store.length then store.drop 1 else store

/-- Modelled from the spec: `ReportError`. No-op if developer mode is
disabled; otherwise applies the eviction cap, appends the record, and
synchronously produces one `OnErrorAdded` call per registered observer
in registration order. Returns the new state together with the observer
calls made before returning. -/
def reportError (c : ErrorConsole) (r : ErrorRecord) :
    ErrorConsole × List ObserverCall :=
  if c.devMode then
    ({ c with store := applyCap c.store ++ [r] },
     c.observers.map (fun o => ObserverCall.errorAdded o r))
  else
    (c, [])

/-- Report a sequence of records in order. -/
def reportAll (c : ErrorConsole) (rs : List ErrorRecord) : ErrorConsole :=
  rs.foldl (fun acc r => (reportError acc r).fst) c

/-- Modelled from the spec: `AddObserver` — registry insertion; a
no-op when the observer identity is already registered. -/
def addObserver (c : ErrorConsole) (o : Nat) : ErrorConsole :=
  if o ∈ c.observers then c
  else { c with observers := c.observers ++ [o] }

/-- Modelled from the spec: `RemoveObserver` — removing an observer that
is not registered is a no-op, not an error. -/
def removeObserver (c : ErrorConsole) (o : Nat) : ErrorConsole :=
  { c with observers := c.observers.filter (fun x => x ≠ o) }

/-- Modelled from the spec: reaction to the developer-mode preference
change notification. On true→false the console deactivates and discards
all stored records unconditionally; on false→true it (re)activates with
whatever the (already purged) store holds — no records are restored. -/
def setDeveloperMode (c : ErrorConsole) (enabled : Bool) : ErrorConsole :=
  if enabled then { c with devMode := true }
  else { c with devMode := false, store := [] }

/-- Modelled from the spec: console teardown at profile destruction —
one `OnErrorConsoleDestroyed` call per remaining observer, delivered
from the registry as it stands at teardown, after which the observer
references are released (the registry is emptied). -/
def destroyConsole (c : ErrorConsole) : ErrorConsole × List ObserverCall :=
  ({ c with observers := [] },
   c.observers.map ObserverCall.consoleDestroyed)

/-! Concrete data for the content-script scenario of the spec and of the
`ContentScriptLogAndRuntimeError` browser test: a content script that
logs "Hello, World!" and then throws on an undefined property. -/

/-- Extension id of the scenario extension. -/
def csExtensionId : ExtensionId := "aaaabbbbccccdddd"

/-- URL of the content script, the source of both scenario errors. -/
def csScriptUrl : String :=
  "chrome-extension://aaaabbbbccccdddd/content_script.js"

/-- URL of the web page the content script runs in. -/
def csPageUrl : String := "http://localhost/extensions/test_file.html"

/-- The sentinel name for anonymous functions. -/
def kAnonymousFunction : String := "(anonymous function)"

/-- Raw stack of the console-log call: an internal console-binding frame
on top of the two user-authored content-script frames. -/
def csLogRawStack : List StackFrame :=
  [⟨"extensions::console", "log", 1, 1⟩,
   ⟨csScriptUrl, "logHelloWorld", 6, 11⟩,
   ⟨csScriptUrl, kAnonymousFunction, 9, 1⟩]

/-- The first scenario record: the console log, INFO level. -/
def csLogRecord : ErrorRecord :=
  mkRuntimeError csExtensionId csScriptUrl false "Hello, World!"
    (.consoleLog .info) csPageUrl csLogRawStack

/-- The second scenario record: the uncaught TypeError, ERROR level. -/
def csTypeErrorRecord : ErrorRecord :=
  mkRuntimeError csExtensionId csScriptUrl false
    "Uncaught TypeError: Cannot set property \x27foo\x27 of undefined"
    .thrownError csPageUrl
    [⟨csScriptUrl, kAnonymousFunction, 12, 1⟩]

/-- The console after the scenario: both records reported with developer
mode on. -/
def csScenarioConsole : ErrorConsole :=
  reportAll (initConsole true) [csLogRecord, csTypeErrorRecord]

/-- Helper: reporting with developer mode enabled and room below the cap
appends the records, in order, to the global store. -/
theorem reportAll_store_no_eviction (rs : List ErrorRecord) :
    ∀ (c : ErrorConsole), c.devMode = true →
      c.store.length + rs.length ≤ kMaxTotalErrors →
      (reportAll c rs).store = c.store ++ rs := by
  induction rs with
  | nil => intro c _ _; simp [reportAll]
  | cons r rs ih =>
      intro c hdev hlen
      have hlt : ¬ kMaxTotalErrors ≤ c.store.length := by
        simp [List.length_cons] at hlen; omega
      have hstep : (reportError c r).fst =
          { c with store := c.store ++ [r] } := by
        simp [reportError, hdev, applyCap, hlt]
      have hrec := ih { c with store := c.store ++ [r] }
        (by simp [hdev]) (by simp at hlen ⊢; omega)
      simp only [reportAll, List.foldl_cons] at *
      rw [hstep, hrec]
      simp

/-- C1: reporting while developer mode is disabled is a no-op — the
state is unchanged (so no ErrorList grows) and the list of observer
calls is empty (OnErrorAdded is not invoked on any observer). -/
theorem reportError_disabled_noop (c : ErrorConsole) (r : ErrorRecord)
    (h : c.devMode = false) :
    reportError c r = (c, []) ∧
    (∀ id, getErrorsForExtension (reportError c r).fst id =
      getErrorsForExtension c id) := by
  constructor
  · simp [reportError, h]
  · intro id
    simp [reportError, h]

/-- Witness for C1 at a concrete disabled console and record. -/
theorem reportError_disabled_noop_witness :
    reportError (initConsole false)
        (.manifestError "a" "msg" "key" "specific") =
      (initConsole false, []) :=
  (reportError_disabled_noop (initConsole false)
    (.manifestError "a" "msg" "key" "specific") rfl).1

/-- C2: from a state with developer mode on and K>0 stored errors,
flipping the preference to false discards every stored record (every
ErrorList becomes empty), and flipping it back to true yields an empty
store — the purged records are not restored. -/
theorem devmode_toggle_purges (c : ErrorConsole)
    (hdev : c.devMode = true) (hK : 0 < c.store.length) :
    (∀ id, getErrorsForExtension (setDeveloperMode c false) id = []) ∧
    (setDeveloperMode (setDeveloperMode c false) true).store = [] ∧
    (∀ id, getErrorsForExtension
      (setDeveloperMode (setDeveloperMode c false) true) id = []) := by
  refine ⟨?_, ?_, ?_⟩ <;>
    simp [setDeveloperMode, getErrorsForExtension]

/-- Witness for C2 at a concrete console holding one stored error. -/
theorem devmode_toggle_purges_witness :
    let c : ErrorConsole :=
      { devMode := true,
        store := [.manifestError "a" "msg" "key" "specific"],
        observers := [] }
    (setDeveloperMode (setDeveloperMode c false) true).store = [] := by
  intro c
  exact (devmode_toggle_purges c rfl (by simp [c])).2.1

/-- C4: every ErrorRecord of the ManifestError variant has
`from_incognito = false` and `source` equal to the fixed manifest
filename. -/
theorem manifest_errors_source_and_incognito (e : ErrorRecord)
    (h : e.etype = ErrorType.manifest) :
    e.from_incognito = false ∧ e.source = kManifestFilename := by
  cases e with
  | manifestError id msg key specific => exact ⟨rfl, rfl⟩
  | runtimeError id src inc msg lvl ctx st =>
      simp [ErrorRecord.etype] at h

/-- Witness for C4 at a concrete manifest error. -/
theorem manifest_errors_source_and_incognito_witness :
    (ErrorRecord.manifestError "a" "msg" "key" "sp").from_incognito
        = false ∧
      (ErrorRecord.manifestError "a" "msg" "key" "sp").source
        = kManifestFilename :=
  manifest_errors_source_and_incognito
    (.manifestError "a" "msg" "key" "sp") rfl

/-- C5: with developer mode enabled, ReportError appends the record to
the store (under its extension id), after applying the eviction cap, and
produces exactly one OnErrorAdded call per registered observer, in
registration order, before returning. -/
theorem reportError_enabled_appends_and_notifies (c : ErrorConsole)
    (r : ErrorRecord) (h : c.devMode = true) :
    (reportError c r).fst.store = applyCap c.store ++ [r] ∧
    getErrorsForExtension (reportError c r).fst r.extension_id =
      ((applyCap c.store).filter
        (fun e => e.extension_id == r.extension_id)) ++ [r] ∧
    (reportError c r).snd =
      c.observers.map (fun o => ObserverCall.errorAdded o r) := by
  refine ⟨?_, ?_, ?_⟩
  · simp [reportError, h]
  · simp [reportError, h, getErrorsForExtension, List.filter_append]
  · simp [reportError, h]

/-- Witness for C5 at a concrete enabled console with two observers. -/
theorem reportError_enabled_appends_and_notifies_witness :
    (reportError
        { devMode := true, store := [], observers := [7, 8] }
        (.manifestError "a" "msg" "key" "sp")).snd =
      [.errorAdded 7 (.manifestError "a" "msg" "key" "sp"),
       .errorAdded 8 (.manifestError "a" "msg" "key" "sp")] :=
  (reportError_enabled_appends_and_notifies
    { devMode := true, store := [], observers := [7, 8] }
    (.manifestError "a" "msg" "key" "sp") rfl).2.2

/-- C6: at a store holding exactly the global cap of entries, an
enabled-mode insertion evicts the single store-wide oldest record (the
head of the global insertion order, regardless of extension id) before
appending the new record; and the total entry count never exceeds the
cap. -/
theorem insertion_at_cap_evicts_global_oldest :
    (∀ (c : ErrorConsole) (r : ErrorRecord), c.devMode = true →
       c.store.length = kMaxTotalErrors →
       (reportError c r).fst.store = c.store.drop 1 ++ [r] ∧
       (reportError c r).fst.store.length = kMaxTotalErrors) ∧
    (∀ (c : ErrorConsole) (r : ErrorRecord),
       c.store.length ≤ kMaxTotalErrors →
       (reportError c r).fst.store.length ≤ kMaxTotalErrors) := by
  have hpos : 0 < kMaxTotalErrors := by simp [kMaxTotalErrors]
  constructor
  · intro c r hdev hlen
    constructor
    · simp [reportError, hdev, applyCap, hlen]
    · simp [reportError, hdev, applyCap, hlen]
      omega
  · intro c r hlen
    by_cases hdev : c.devMode
    · simp only [reportError, hdev, if_true, applyCap]
      by_cases hfull : kMaxTotalErrors ≤ c.store.length
      · simp [hfull]; omega
      · simp [hfull]; omega
    · simp [reportError, hdev]
      omega

/-- Witness for C6 at a concrete console whose store holds exactly the
cap, with the new record belonging to a different extension id. -/
theorem insertion_at_cap_evicts_global_oldest_witness :
    (reportError
        { devMode := true,
          store := List.replicate kMaxTotalErrors
            (.manifestError "a" "msg" "key" "sp"),
          observers := [] }
        (.manifestError "b" "msg2" "key2" "sp2")).fst.store =
      (List.replicate kMaxTotalErrors
        (ErrorRecord.manifestError "a" "msg" "key" "sp")).drop 1 ++
        [.manifestError "b" "msg2" "key2" "sp2"] :=
  (insertion_at_cap_evicts_global_oldest.1
    { devMode := true,
      store := List.replicate kMaxTotalErrors
        (.manifestError "a" "msg" "key" "sp"),
      observers := [] }
    (.manifestError "b" "msg2" "key2" "sp2") rfl
    (by simp)).1

/-- C7: every observer still registered at teardown receives exactly one
OnErrorConsoleDestroyed call, delivered from the registry before the
console releases its observer references; afterwards the registry is
empty, so no operation on the destroyed console produces any observer
call. -/
theorem destroy_notifies_each_observer_once (c : ErrorConsole) (o : Nat)
    (hmem : o ∈ c.observers) (hnd : c.observers.Nodup) :
    (destroyConsole c).snd.count (ObserverCall.consoleDestroyed o) = 1 ∧
    (destroyConsole c).fst.observers = [] ∧
    (∀ r, (reportError (destroyConsole c).fst r).snd = []) ∧
    (destroyConsole (destroyConsole c).fst).snd = [] := by
  have hinj : Function.Injective ObserverCall.consoleDestroyed := by
    intro a b h
    injection h
  refine ⟨?_, rfl, ?_, ?_⟩
  · show (c.observers.map ObserverCall.consoleDestroyed).count
      (ObserverCall.consoleDestroyed o) = 1
    rw [List.count_map_of_injective _ _ hinj]
    exact List.count_eq_one_of_mem hnd hmem
  · intro r
    by_cases hdev : c.devMode <;>
      simp [reportError, destroyConsole, hdev]
  · simp [destroyConsole]

/-- Witness for C7 at a concrete console with two registered
observers. -/
theorem destroy_notifies_each_observer_once_witness :
    (destroyConsole
        { devMode := true, store := [], observers := [3, 4] }).snd.count
      (ObserverCall.consoleDestroyed 3) = 1 :=
  (destroy_notifies_each_observer_once
    { devMode := true, store := [], observers := [3, 4] } 3
    (by simp) (by simp)).1

/-- C8: the ingestion-time stack-frame filter is a pure function of the
raw frame sequence — a frame is retained exactly when it occurs in the
raw sequence and its source is classified as extension-authored — and
consequently every stored RuntimeError built by a producer carries only
extension-authored frames. -/
theorem stack_filter_keeps_extension_authored_frames :
    (∀ (frames : List StackFrame) (f : StackFrame),
       f ∈ filterStackFrames frames ↔
         f ∈ frames ∧ isExtensionAuthoredSource f.source = true) ∧
    (∀ (id : ExtensionId) (src : String) (inc : Bool) (msg : String)
       (ev : RuntimeEventKind) (ctx : String)
       (raw : List StackFrame) (f : StackFrame),
       f ∈ (mkRuntimeError id src inc msg ev ctx raw).stack_trace →
         isExtensionAuthoredSource f.source = true) := by
  constructor
  · intro frames f
    simp [filterStackFrames, List.mem_filter]
  · intro id src inc msg ev ctx raw f hf
    simp only [mkRuntimeError, ErrorRecord.stack_trace,
      filterStackFrames, List.mem_filter] at hf
    exact hf.2

/-- Witness for C8: the scenario raw log stack keeps exactly its two
user-authored frames and drops the internal console-binding frame. -/
theorem stack_filter_keeps_extension_authored_frames_witness :
    (⟨csScriptUrl, "logHelloWorld", 6, 11⟩ : StackFrame) ∈
        filterStackFrames csLogRawStack ∧
      ¬ ((⟨"extensions::console", "log", 1, 1⟩ : StackFrame) ∈
        filterStackFrames csLogRawStack) := by
  constructor
  · exact
      (stack_filter_keeps_extension_authored_frames.1 csLogRawStack
        ⟨csScriptUrl, "logHelloWorld", 6, 11⟩).mpr
        ⟨by simp [csLogRawStack], by decide⟩
  · intro hmem
    have h :=
      (stack_filter_keeps_extension_authored_frames.1 csLogRawStack
        ⟨"extensions::console", "log", 1, 1⟩).mp hmem
    exact absurd h.2 (by decide)

/-- C10: every RuntimeError produced for an uncaught failure (thrown
error, bad API arguments, missing API permission, unchecked
runtime.lastError) has severity ERROR; a record whose severity is lower
can only originate from a console log. -/
theorem uncaught_failures_are_error_level :
    (∀ (id : ExtensionId) (src : String) (inc : Bool) (msg : String)
       (ev : RuntimeEventKind) (ctx : String) (raw : List StackFrame),
       (∀ sev, ev ≠ RuntimeEventKind.consoleLog sev) →
       (mkRuntimeError id src inc msg ev ctx raw).level =
         some LogSeverity.error) ∧
    (∀ (id : ExtensionId) (src : String) (inc : Bool) (msg : String)
       (ev : RuntimeEventKind) (ctx : String) (raw : List StackFrame)
       (lvl : LogSeverity),
       (mkRuntimeError id src inc msg ev ctx raw).level = some lvl →
       lvl ≠ LogSeverity.error →
       ∃ sev, ev = RuntimeEventKind.consoleLog sev) := by
  constructor
  · intro id src inc msg ev ctx raw h
    cases ev with
    | consoleLog sev => exact absurd rfl (h sev)
    | thrownError => rfl
    | badApiArguments => rfl
    | missingApiPermission => rfl
    | uncheckedLastError => rfl
  · intro id src inc msg ev ctx raw lvl hlvl hne
    cases ev with
    | consoleLog sev => exact ⟨sev, rfl⟩
    | thrownError =>
        simp [mkRuntimeError, ErrorRecord.level, severityFor] at hlvl
        exact absurd hlvl.symm hne
    | badApiArguments =>
        simp [mkRuntimeError, ErrorRecord.level, severityFor] at hlvl
        exact absurd hlvl.symm hne
    | missingApiPermission =>
        simp [mkRuntimeError, ErrorRecord.level, severityFor] at hlvl
        exact absurd hlvl.symm hne
    | uncheckedLastError =>
        simp [mkRuntimeError, ErrorRecord.level, severityFor] at hlvl
        exact absurd hlvl.symm hne

/-- Witness for C10: the scenario TypeError record (an uncaught thrown
error) carries ERROR level. -/
theorem uncaught_failures_are_error_level_witness :
    (mkRuntimeError csExtensionId csScriptUrl false
        "Uncaught TypeError: Cannot set property \x27foo\x27 of undefined"
        RuntimeEventKind.thrownError csPageUrl
        [⟨csScriptUrl, kAnonymousFunction, 12, 1⟩]).level =
      some LogSeverity.error :=
  uncaught_failures_are_error_level.1 csExtensionId csScriptUrl false
    "Uncaught TypeError: Cannot set property \x27foo\x27 of undefined"
    RuntimeEventKind.thrownError csPageUrl
    [⟨csScriptUrl, kAnonymousFunction, 12, 1⟩]
    (by intro sev h; cases h)

/-- C3: reporting N records for one extension id with developer mode
enabled, N below the global cap, makes GetErrorsForExtension return
exactly those N records in reporting order, while every id with no
reported errors still gets the empty sequence. (GetErrorsForExtension is
a pure function of the state by construction: it reads the store and
returns a list, mutating nothing.) -/
theorem getErrorsForExtension_after_reports (rs : List ErrorRecord)
    (id : ExtensionId)
    (hall : ∀ r ∈ rs, r.extension_id = id)
    (hlen : rs.length < kMaxTotalErrors) :
    getErrorsForExtension (reportAll (initConsole true) rs) id = rs ∧
    (∀ id2, (∀ r ∈ rs, r.extension_id ≠ id2) →
      getErrorsForExtension (reportAll (initConsole true) rs) id2
        = []) := by
  have hstore : (reportAll (initConsole true) rs).store = rs := by
    have h := reportAll_store_no_eviction rs (initConsole true) rfl
      (by simp [initConsole]; omega)
    simpa [initConsole] using h
  constructor
  · simp only [getErrorsForExtension, hstore]
    rw [List.filter_eq_self]
    intro r hr
    simpa using hall r hr
  · intro id2 hnone
    simp only [getErrorsForExtension, hstore]
    rw [List.filter_eq_nil_iff]
    intro r hr
    simpa using hnone r hr

/-- Witness for C3 with two concrete records for one extension id and a
query for an id with no errors. -/
theorem getErrorsForExtension_after_reports_witness :
    getErrorsForExtension
        (reportAll (initConsole true)
          [.manifestError "w" "m1" "k1" "s1",
           .runtimeError "w" "src" false "m2" .error "ctx" []]) "w" =
      [.manifestError "w" "m1" "k1" "s1",
       .runtimeError "w" "src" false "m2" .error "ctx" []] ∧
    getErrorsForExtension
        (reportAll (initConsole true)
          [.manifestError "w" "m1" "k1" "s1",
           .runtimeError "w" "src" false "m2" .error "ctx" []]) "z"
      = [] := by
  have h := getErrorsForExtension_after_reports
    [.manifestError "w" "m1" "k1" "s1",
     .runtimeError "w" "src" false "m2" .error "ctx" []] "w"
    (by decide) (by decide)
  exact ⟨h.1, h.2 "z" (by decide)⟩

/-- C9: the content-script scenario — a log of "Hello, World!" followed
by an uncaught TypeError, with developer mode on — stores exactly two
RuntimeErrors in that order: the first at INFO level with message
"Hello, World!" and a 2-frame filtered stack trace, the second at ERROR
level with a message containing "Cannot set property \x27foo\x27 of
undefined" and a 1-frame stack trace. -/
theorem content_script_scenario :
    getErrorsForExtension csScenarioConsole csExtensionId =
      [csLogRecord, csTypeErrorRecord] ∧
    csLogRecord.level = some LogSeverity.info ∧
    csLogRecord.message = "Hello, World!" ∧
    csLogRecord.stack_trace.length = 2 ∧
    csTypeErrorRecord.level = some LogSeverity.error ∧
    (∃ pre, csTypeErrorRecord.message =
      pre ++ "Cannot set property \x27foo\x27 of undefined") ∧
    csTypeErrorRecord.stack_trace.length = 1 := by
  refine ⟨by decide, rfl, rfl, by decide, rfl,
    ⟨"Uncaught TypeError: ", by decide⟩, by decide⟩

end ErrorConsoleModel
